/-
Verification of the image-service storage and processing pipeline of
`aws-deployment-k8s` (services/image-service).

The Python source is shallowly embedded:
* `utils/image_processor.py` (`ImageProcessor`): `validate_image`,
  `resize_image`, `apply_filter`, `rotate_image`.
* `src/services/image_service.py` (`ImageService`): `upload_image`,
  `get_user_images`, `get_image_by_id`, `delete_image`, `process_image`,
  and the inline owner-key (user-UUID) derivations.

External collaborators are modelled explicitly:
* PIL images are represented by their observable attributes
  (width, height, `format` metadata, colour mode); raw byte payloads are
  represented by their length together with the outcome of decoding them
  with PIL (`Image.open` + `verify`), since PIL decoding is deterministic
  in the bytes.  PIL operations that return a *new* image object
  (`resize`, `rotate`, `filter`, `ImageOps.*`, `ImageEnhance.*`) yield an
  image whose `format` attribute is `None` — in PIL, `format` is set only
  by the decoder (`Image.open`); `thumbnail` works in place and keeps it.
* Python's `uuid.UUID(s)` constructor is modelled by its main acceptance
  path: strip `urn:` / `uuid:`, strip surrounding braces, drop dashes,
  then require exactly 32 hexadecimal digits (the extra leniency of
  `int(_, 16)` for whitespace/underscores/`0x` is not modelled; no claim
  depends on that boundary).  `uuid.uuid5(NAMESPACE_DNS, s)` is modelled
  as an opaque injective constructor (deterministic, and its negligible
  collision probability with parsed UUIDs is idealised to zero).
* The S3 client and the Postgres pool are modelled as explicit state
  (a list of stored objects, a list of table rows); their failures are
  injected through boolean parameters at the call sites where the Python
  code catches the corresponding exceptions.
-/
import Mathlib

/-- Bytes of a stored blob (opaque byte string). -/
abbrev PyBytesRaw := List Nat

/-- Hexadecimal digit test used by the `uuid.UUID` parsing model. -/
def isHexChar (c : Char) : Bool :=
  c.isDigit || ('a' ≤ c && c ≤ 'f') || ('A' ≤ c && c ≤ 'F')

/-- One fuelled pass of Python's `str.replace(pat, '')`: removes every
non-overlapping occurrence of `pat`, left to right.  `fuel` is consumed on
every step so the recursion is structural; `pyRemove` supplies enough fuel. -/
def pyRemoveAux (pat : List Char) : Nat → List Char → List Char
  | 0, s => s
  | _ + 1, [] => []
  | fuel + 1, c :: rest =>
    if pat.isPrefixOf (c :: rest) && !pat.isEmpty then
      pyRemoveAux pat fuel (List.drop pat.length (c :: rest))
    else
      c :: pyRemoveAux pat fuel rest

/-- Python `s.replace(pat, '')` on character lists. -/
def pyRemove (pat s : List Char) : List Char :=
  pyRemoveAux pat s.length s

/-- Python `s.strip('\x7b\x7d')`: drop leading and trailing brace characters. -/
def stripBraces (s : List Char) : List Char :=
  let isBrace : Char → Bool := fun c => c == '\x7b' || c == '\x7d'
  ((s.dropWhile isBrace).reverse.dropWhile isBrace).reverse

/-- Model of `uuid.UUID(s)` (CPython `uuid.py`): normalise the string and
accept exactly 32 hex digits; the returned canonical value is the lowercase
32-digit hex string. `none` models the `ValueError` raise. -/
def pyParseUUID (s : String) : Option String :=
  let t := pyRemove "uuid:".toList (pyRemove "urn:".toList s.toList)
  let t := stripBraces t
  let t := t.filter (fun c => !(c == '-'))
  if t.length = 32 && t.all isHexChar then
    some (String.mk (t.map Char.toLower))
  else
    none

/-- A Python `uuid.UUID` value: either a literal 128-bit value written as 32
lowercase hex digits, or the value of `uuid.uuid5(uuid.NAMESPACE_DNS, name)`,
kept opaque (deterministic in `name`; collisions idealised away). -/
inductive PyUUID where
  | lit (hex32 : String)
  | uuid5dns (name : String)
deriving DecidableEq, Repr

/-- `str(u)` for the canonical 32-hex-digit form: reinsert the dashes. -/
def dashUUID (h : String) : String :=
  let l := h.toList
  String.mk (l.take 8) ++ "-" ++ String.mk ((l.drop 8).take 4) ++ "-" ++
    String.mk ((l.drop 12).take 4) ++ "-" ++ String.mk ((l.drop 16).take 4) ++
    "-" ++ String.mk (l.drop 20)

/-- `str(u)` on the model.  For `uuid5dns` the true value is a SHA-1 hash;
it is rendered by an opaque deterministic tag, which is all the code under
verification observes of it. -/
def pyUUIDStr : PyUUID → String
  | .lit h => dashUUID h
  | .uuid5dns n => "uuid5-dns-" ++ n

/-- The reserved demo-user UUID `00000000-0000-0000-0000-000000000001`. -/
def reservedHex : String := "00000000000000000000000000000001"

/-- Owner-key derivation inlined in `ImageService.upload_image`
(image_service.py:89-98): the sentinel `"demo-user"` maps to the reserved
UUID; a string accepted by `uuid.UUID` maps to its value; any other string
maps to `uuid.uuid5(uuid.NAMESPACE_DNS, user_id)`. -/
def deriveOwnerUpload (user_id : String) : PyUUID :=
  if user_id = "demo-user" then .lit reservedHex
  else
    match pyParseUUID user_id with
    | some h => .lit h
    | none => .uuid5dns user_id

/-- Owner-key derivation inlined in `ImageService.get_user_images`
(image_service.py:171-178); textually the same logic as upload's. -/
def deriveOwnerList (user_id : String) : PyUUID :=
  if user_id = "demo-user" then .lit reservedHex
  else
    match pyParseUUID user_id with
    | some h => .lit h
    | none => .uuid5dns user_id

/-- Owner-key computation in `ImageService.delete_image`
(image_service.py:316,334) and `ImageService.get_image_by_id`
(image_service.py:249): a bare `uuid.UUID(user_id)` with no demo-user
sentinel and no `uuid5` fallback; `none` models the `ValueError` that the
enclosing `except` block turns into a not-found result. -/
def deriveOwnerStrict (user_id : String) : Option PyUUID :=
  (pyParseUUID user_id).map .lit

example : pyParseUUID "demo-user" = none := by decide
example : pyParseUUID "mock-user-id" = none := by decide
example :
    pyParseUUID "123E4567-e89b-12d3-a456-426614174000" =
      some "123e4567e89b12d3a456426614174000" := by decide
example : deriveOwnerUpload "demo-user" = .lit reservedHex := by decide

/-! ## Storage service state (`ImageService`, image_service.py)

The Postgres `images` table is a list of rows; S3 is a list of stored
objects keyed by bucket and key.  `asyncpg` / `boto3` failures are
injected through boolean parameters at the points where the Python code
would receive an exception. -/

/-- A row of the `images` table.  `id` and `user_id` are the stored UUID
values (`id` kept in canonical 32-hex form). -/
structure ImageRow where
  id : String
  user_id : PyUUID
  filename : String
  original_filename : String
  s3_key : String
  s3_bucket : String
  size : Nat
  content_type : String
  width : Option Nat
  height : Option Nat
  created_at : Nat
deriving DecidableEq, Repr

/-- An object stored in S3: bucket, key and body. -/
structure S3Object where
  bucket : String
  key : String
  body : PyBytesRaw
deriving DecidableEq, Repr

/-- The two-tier store: the metadata index rows and the object store. -/
structure SvcState where
  db : List ImageRow
  s3 : List S3Object
deriving DecidableEq, Repr

/-- The response dict built by `upload_image` / `get_user_images` /
`get_image_by_id` for one image.  `created_at` is kept as the row's
timestamp (the Python code renders it with `isoformat()`). -/
structure ImageView where
  id : String
  filename : String
  user_id : String
  size : Nat
  url : String
  thumbnail_url : Option String
  created_at : Nat
  content_type : String
deriving DecidableEq, Repr

/-- The S3 URL composed by the service:
`https://{bucket}.s3.{region}.amazonaws.com/{key}` . -/
def s3Url (region bucket key : String) : String :=
  "https://" ++ bucket ++ ".s3." ++ region ++ ".amazonaws.com/" ++ key

/-- The per-row response dict (shared shape of image_service.py:147-156,
209-218 and 254-263). -/
def rowView (region user_id : String) (r : ImageRow) : ImageView :=
  { id := dashUUID r.id
    filename := r.original_filename
    user_id := user_id
    size := r.size
    url := s3Url region r.s3_bucket r.s3_key
    thumbnail_url := none
    created_at := r.created_at
    content_type := r.content_type }

/-- Python `s.lower()` (character-wise; written over the character list so
it evaluates by kernel reduction). -/
def strLower (s : String) : String :=
  String.mk (s.toList.map Char.toLower)

/-- Python `original_filename.split('.')[-1].lower()`: the last
dot-separated segment (the whole name when it has no dot), lowercased. -/
def pyFileExt (original_filename : String) : String :=
  strLower (String.mk
    ((original_filename.toList.reverse.takeWhile (fun c => !(c == '.'))).reverse))

/-- `put_object`: later puts shadow earlier ones under the same key. -/
def s3Put (store : List S3Object) (bucket key : String) (body : PyBytesRaw) :
    List S3Object :=
  { bucket := bucket, key := key, body := body } ::
    store.filter (fun o => !(o.bucket == bucket && o.key == key))

/-- `delete_object`: drop the object; deleting a missing key is not an error. -/
def s3Delete (store : List S3Object) (bucket key : String) : List S3Object :=
  store.filter (fun o => !(o.bucket == bucket && o.key == key))

/-- `ImageService.upload_image` (image_service.py:77-160).

Inputs that the Python code obtains from its environment are passed
explicitly: `content` is `await file.read()`, `image_id_hex` is the fresh
`uuid.uuid4()` (canonical 32-hex form — `str(uuid4())` always re-parses to
itself), `dims` is the outcome of the PIL dimension probe (`None` when
`Image.open` fails; the failure is non-fatal), `now` the insertion
timestamp, and `s3_ok` / `insert_ok` inject `put_object` / `INSERT`
failures.  Any exception makes the whole call raise
`Exception("Upload failed: ...")`, modelled as `.error`. -/
def upload_image (st : SvcState) (bucket region : String) (content : PyBytesRaw)
    (user_id original_filename content_type : String) (image_id_hex : String)
    (dims : Option (Nat × Nat)) (now : Nat) (s3_ok insert_ok : Bool) :
    Except String ImageView × SvcState :=
  let user_uuid := deriveOwnerUpload user_id
  let filename := dashUUID image_id_hex ++ "." ++ pyFileExt original_filename
  let s3_key := "images/" ++ pyUUIDStr user_uuid ++ "/" ++ filename
  if s3_ok then
    let s3' := s3Put st.s3 bucket s3_key content
    if insert_ok then
      let row : ImageRow :=
        { id := image_id_hex
          user_id := user_uuid
          filename := filename
          original_filename := original_filename
          s3_key := s3_key
          s3_bucket := bucket
          size := content.length
          content_type := content_type
          width := dims.map Prod.fst
          height := dims.map Prod.snd
          created_at := now }
      (.ok (rowView region user_id row), { db := st.db ++ [row], s3 := s3' })
    else
      (.error "Upload failed: insert error", { st with s3 := s3' })
  else
    (.error "Upload failed: S3 error", st)

/-- Row match used by `get_image_by_id` and `delete_image`:
`WHERE id = $1 AND user_id = $2` . -/
def rowMatches (iid : String) (key : PyUUID) (r : ImageRow) : Bool :=
  decide (r.id = iid ∧ r.user_id = key)

/-- `ImageService.get_image_by_id` (image_service.py:235-267): note the bare
`uuid.UUID(user_id)` — a parse failure is caught by the `except` and turned
into `None`, exactly like a missing row. -/
def get_image_by_id (st : SvcState) (region image_id user_id : String) :
    Option ImageView :=
  match pyParseUUID image_id, pyParseUUID user_id with
  | some iid, some uid =>
    ((st.db.find? (rowMatches iid (.lit uid))).map (rowView region user_id))
  | _, _ => none

/-- `ImageService.delete_image` (image_service.py:303-341).  Returns the
Python `bool` result together with the new state; `s3_ok` injects the
`delete_object` failure, which is only logged.  The final result is
`deleted_rows == "DELETE 1"` where `deleted_rows` counts the rows removed
by `DELETE FROM images WHERE id = $1 AND user_id = $2`. -/
def delete_image (st : SvcState) (image_id user_id : String) (s3_ok : Bool) :
    Bool × SvcState :=
  match pyParseUUID image_id, pyParseUUID user_id with
  | some iid, some uid =>
    match st.db.find? (rowMatches iid (.lit uid)) with
    | none => (false, st)
    | some row =>
      let s3' := if s3_ok then s3Delete st.s3 row.s3_bucket row.s3_key else st.s3
      let removed := st.db.filter (rowMatches iid (.lit uid))
      let db' := st.db.filter (fun r => !(rowMatches iid (.lit uid) r))
      (removed.length = 1, { db := db', s3 := s3' })
  | _, _ => (false, st)

/-- Pagination envelope of `get_user_images` (image_service.py:222-228). -/
structure Pagination where
  currentPage : Nat
  totalPages : Nat
  totalImages : Nat
  hasNextPage : Bool
  hasPreviousPage : Bool
deriving DecidableEq, Repr

/-- Response of `get_user_images`. -/
structure ListResponse where
  images : List ImageView
  pagination : Pagination
deriving DecidableEq, Repr

/-- `content_type ILIKE '%{f}%'`: case-insensitive substring match. -/
def ilikeSub (f content_type : String) : Bool :=
  decide ((strLower f).toList <:+: (strLower content_type).toList)

/-- Rows selected by `get_user_images`' WHERE clause. -/
def listWhere (key : PyUUID) (format_filter : Option String) (r : ImageRow) :
    Bool :=
  decide (r.user_id = key) &&
    (match format_filter with
     | some f => ilikeSub f r.content_type
     | none => true)

/-- `ImageService.get_user_images` (image_service.py:162-233): derive the
owner key with the same demo-user/uuid5 logic as upload, count the matching
rows, page through them ordered by `created_at DESC` (`LIMIT limit OFFSET
(page-1)*limit`), and compose the pagination envelope. -/
def get_user_images (st : SvcState) (region user_id : String)
    (page limit : Nat) (format_filter : Option String) : ListResponse :=
  let key := deriveOwnerList user_id
  let offset := (page - 1) * limit
  let matching := st.db.filter (listWhere key format_filter)
  let total := matching.length
  let sorted := matching.insertionSort (fun a b => b.created_at ≤ a.created_at)
  let pageRows := (sorted.drop offset).take limit
  { images := pageRows.map (rowView region user_id)
    pagination :=
      { currentPage := page
        totalPages := (total + limit - 1) / limit
        totalImages := total
        hasNextPage := page * limit < total
        hasPreviousPage := 1 < page } }

/-! ## `process_image` and its in-memory mock store (image_service.py:343-358) -/

/-- An entry of the in-memory `mock_storage` dict as `process_image` uses it:
the fields it reads (`id`, `user_id`) and writes (`id`, `original_id`,
`operations`, `processed_at`); `payload` stands for all remaining dict
entries, copied verbatim by the `**image` spread. -/
structure MockImage where
  id : String
  user_id : String
  original_id : Option String
  operations : List String
  processed_at : Option Nat
  payload : Nat
deriving DecidableEq, Repr

/-- The `ImageService` attribute state relevant to `process_image`:
`__init__` (image_service.py:14-21) assigns `settings`, `s3_client` and
`db_pool` but never `mock_storage`, and no other method assigns it either,
so on every constructed service the attribute is absent (`none`). -/
structure MockState where
  mock_storage : Option (List (String × MockImage))
deriving DecidableEq, Repr

/-- The state left by `ImageService.__init__`. -/
def initImageService : MockState := { mock_storage := none }

/-- Python dict assignment `d[k] = v`. -/
def dictInsert (d : List (String × MockImage)) (k : String) (v : MockImage) :
    List (String × MockImage) :=
  (k, v) :: d.filter (fun p => !(p.1 == k))

/-- `ImageService.process_image` (image_service.py:343-358).  `processed_id`
is the fresh `uuid.uuid4()` and `now` the `processed_at` timestamp.  Reading
`self.mock_storage` on a service whose constructor never created that
attribute raises `AttributeError`, modelled by `.error`; otherwise the
method returns the stored view (`some`) or `None` for an absent or
not-owned image. -/
def process_image (st : MockState) (image_id user_id : String)
    (operations : List String) (processed_id : String) (now : Nat) :
    Except String (Option MockImage) × MockState :=
  match st.mock_storage with
  | none => (.error "AttributeError: mock_storage", st)
  | some store =>
    match store.lookup image_id with
    | some image =>
      if image.user_id = user_id then
        let processed : MockImage :=
          { image with
              id := processed_id
              original_id := some image_id
              operations := operations
              processed_at := some now }
        (.ok (some processed),
          { mock_storage := some (dictInsert store processed_id processed) })
      else (.ok none, st)
    | none => (.ok none, st)

/-! ## Codec engine (`ImageProcessor`, utils/image_processor.py) -/

/-- A PIL in-memory image, by its observable attributes.  `format?` is the
`format` metadata attribute: set by the decoder (`Image.open`), `None` on
every image created by a PIL operation (`resize`, `rotate`, `filter`,
`ImageOps`/`ImageEnhance` results). -/
structure PILImage where
  width : Nat
  height : Nat
  format? : Option String
  mode : String
deriving DecidableEq, Repr

/-- Decidable equality for `Except` results (needed so witnesses can be
checked by `decide`). -/
instance {α β : Type} [DecidableEq α] [DecidableEq β] :
    DecidableEq (Except α β)
  | .error a, .error b =>
    if h : a = b then .isTrue (h ▸ rfl)
    else .isFalse (fun hh => h (by cases hh; rfl))
  | .error _, .ok _ => .isFalse (by simp)
  | .ok _, .error _ => .isFalse (by simp)
  | .ok a, .ok b =>
    if h : a = b then .isTrue (h ▸ rfl)
    else .isFalse (fun hh => h (by cases hh; rfl))

/-- A raw byte payload as the processor observes it: its byte length and
the outcome of decoding it with PIL (`Image.open` + `verify`; the `.error`
carries the exception text). -/
structure PyBytes where
  length : Nat
  decode : Except String PILImage
deriving DecidableEq, Repr

/-- Metadata dict returned by a successful `validate_image`.  The float
`aspect_ratio` entry (`round(width/height, 2)`) is not modelled
(floating-point; no claim mentions it). -/
structure ImageMeta where
  width : Nat
  height : Nat
  format? : Option String
  mode : String
  file_size : Nat
deriving DecidableEq, Repr

/-- Result dict of `validate_image`: `valid: True` with metadata, or
`valid: False` with an `error` string. -/
inductive ValidationResult where
  | ok (meta : ImageMeta)
  | invalid (error : String)
deriving DecidableEq, Repr

/-- `max_size = 10 * 1024 * 1024` (image_processor.py:51). -/
def maxImageBytes : Nat := 10 * 1024 * 1024

/-- `max_dimension = 4096` (image_processor.py:59). -/
def maxDimension : Nat := 4096

/-- The size rejection f-string (image_processor.py:55). -/
def sizeErrorMsg (file_size : Nat) : String :=
  "File size too large: " ++ toString file_size ++ " bytes (max: " ++
    toString maxImageBytes ++ " bytes)"

/-- The dimension rejection f-string (image_processor.py:63). -/
def dimErrorMsg (width height : Nat) : String :=
  "Image dimensions too large: " ++ toString width ++ "x" ++ toString height ++
    " (max: " ++ toString maxDimension ++ "x" ++ toString maxDimension ++ ")"

/-- `ImageProcessor.validate_image` (image_processor.py:26-83): any
exception of the decode step is caught and reported as
`Invalid image format: ...`; then the size cap, then the dimension cap,
each with its specific message; otherwise the metadata dict. -/
def validate_image (p : PyBytes) : ValidationResult :=
  match p.decode with
  | .error e => .invalid ("Invalid image format: " ++ e)
  | .ok img =>
    if maxImageBytes < p.length then
      .invalid (sizeErrorMsg p.length)
    else if maxDimension < img.width ∨ maxDimension < img.height then
      .invalid (dimErrorMsg img.width img.height)
    else
      .ok { width := img.width, height := img.height, format? := img.format?,
            mode := img.mode, file_size := p.length }

/-- `round_aspect(y * aspect, key=lambda n: abs(aspect - n / y))` from
Pillow's `Image.thumbnail` (the `x`-branch), in exact arithmetic:
candidates are `floor(y*w/h)` and `ceil(y*w/h)`; the one whose ratio to `y`
is closer to `w/h` wins (the floor on a tie, `min` keeping the first
argument), and the result is clamped to at least 1. -/
def pilRoundAspect1 (w h y : Nat) : Nat :=
  max (if y * w - (y * w / h) * h ≤ ((y * w + h - 1) / h) * h - y * w
       then y * w / h
       else (y * w + h - 1) / h) 1

/-- `round_aspect(x / aspect, key=lambda n: 0 if n == 0 else abs(aspect - x / n))`
from Pillow's `Image.thumbnail` (the `y`-branch), in exact arithmetic:
candidates `floor(x*h/w)` and `ceil(x*h/w)`; a zero candidate has key 0 and
wins outright; otherwise the keys `|w/h - x/n|` are compared after clearing
denominators (`h·f·c > 0`). -/
def pilRoundAspect2 (w h x : Nat) : Nat :=
  max (if x * h / w = 0 then x * h / w
       else if (x * h - (x * h / w) * w) * ((x * h + w - 1) / w) ≤
           (((x * h + w - 1) / w) * w - x * h) * (x * h / w)
       then x * h / w
       else (x * h + w - 1) / w) 1

/-- Pillow `Image.thumbnail(size, LANCZOS)` (called at
image_processor.py:102), in-place: no-op when the image already fits the
box, otherwise scale down to fit, rounding the free dimension to the
aspect-nearest integer; `format` is preserved because the operation mutates
the open image.  Pillow's float comparisons are modelled exactly over ℕ
(`tw/th ≥ w/h  ↔  w*th ≤ tw*h`). -/
def pilThumbnail (img : PILImage) (tw th : Nat) : PILImage :=
  if img.width ≤ tw ∧ img.height ≤ th then img
  else if img.width * th ≤ tw * img.height then
    { img with width := pilRoundAspect1 img.width img.height th, height := th }
  else
    { img with width := tw, height := pilRoundAspect2 img.width img.height tw }

/-- Pillow `Image.resize((tw, th), LANCZOS)` (image_processor.py:104):
returns a fresh image of exactly the requested size, same mode, and — being
a new object — no `format` metadata. -/
def pilResize (img : PILImage) (tw th : Nat) : PILImage :=
  { width := tw, height := th, format? := none, mode := img.mode }

/-- Result of the shared save block: the encoding format passed to
`img.save`, the saved dimensions and mode, and whether the
white-background RGB flattening ran. -/
structure EncodedImage where
  format : String
  width : Nat
  height : Nat
  mode : String
  flattened : Bool
deriving DecidableEq, Repr

/-- The save block shared verbatim by `resize_image`
(image_processor.py:106-118), `apply_filter` (173-185) and `rotate_image`
(207-219): `format_name = img.format or 'JPEG'`, then
`if format_name == 'JPEG' and img.mode in ('RGBA', 'LA', 'P')` paste the
image over an opaque white RGB background before saving. -/
def encodeStep (img : PILImage) : EncodedImage :=
  if img.format?.getD "JPEG" = "JPEG" ∧
      (img.mode = "RGBA" ∨ img.mode = "LA" ∨ img.mode = "P")
  then
    { format := img.format?.getD "JPEG", width := img.width,
      height := img.height, mode := "RGB", flattened := true }
  else
    { format := img.format?.getD "JPEG", width := img.width,
      height := img.height, mode := img.mode, flattened := false }

/-- `ImageProcessor.resize_image` (image_processor.py:85-123); exceptions
are re-raised as `ValueError("Failed to resize image: ...")`. -/
def resize_image (p : PyBytes) (width height : Nat) (maintain_aspect : Bool) :
    Except String EncodedImage :=
  match p.decode with
  | .error e => .error ("Failed to resize image: " ++ e)
  | .ok img =>
    let img' := if maintain_aspect then pilThumbnail img width height
                else pilResize img width height
    .ok (encodeStep img')

/-- `ImageProcessor.create_thumbnail` (image_processor.py:125-136). -/
def create_thumbnail (p : PyBytes) (size : Nat) : Except String EncodedImage :=
  resize_image p size size true

/-- The supported filter names (spec §4.1 and image_processor.py:152-169). -/
def supportedFilters : List String :=
  ["blur", "sharpen", "edge", "emboss", "grayscale", "sepia", "enhance"]

/-- The filter dispatch of `apply_filter` (image_processor.py:152-171) on
the working image, matching on `filter_name.lower()`.  Every branch builds
a fresh PIL image, so the result carries no `format` metadata.  Pillow
semantics of the branches: the `ImageFilter` convolutions reject palette
images ("cannot filter palette images"); `ImageOps.grayscale` converts to
mode `L`; `sepia`'s `ImageOps.colorize` yields `RGB`; `enhance` keeps the
mode.  An unknown name raises `ValueError` carrying the original,
un-lowercased `filter_name`. -/
def pilFilterOp (img : PILImage) (filter_name : String) :
    Except String PILImage :=
  if strLower filter_name = "blur" ∨ strLower filter_name = "sharpen" ∨
      strLower filter_name = "edge" ∨ strLower filter_name = "emboss" then
    if img.mode = "P" then .error "cannot filter palette images"
    else .ok { img with format? := none }
  else if strLower filter_name = "grayscale" then
    .ok { img with mode := "L", format? := none }
  else if strLower filter_name = "sepia" then
    .ok { img with mode := "RGB", format? := none }
  else if strLower filter_name = "enhance" then
    .ok { img with format? := none }
  else .error ("Unknown filter: " ++ filter_name)

/-- `ImageProcessor.apply_filter` (image_processor.py:138-190); every
exception — including the unknown-filter `ValueError` — is re-raised as
`ValueError("Failed to apply filter: ...")`. -/
def apply_filter (p : PyBytes) (filter_name : String) :
    Except String EncodedImage :=
  match p.decode with
  | .error e => .error ("Failed to apply filter: " ++ e)
  | .ok img =>
    match pilFilterOp img filter_name with
    | .error e => .error ("Failed to apply filter: " ++ e)
    | .ok img' => .ok (encodeStep img')

/-- `ImageProcessor.rotate_image` (image_processor.py:192-224).  The canvas
size of PIL's `rotate(angle, expand=True)` is floating-point trigonometry
and is abstracted as `rotatedSize` (for right angles it is exactly the
swap/keep of the source size).  `rotate` returns a fresh image, so the save
block sees no `format` metadata; the mode is preserved. -/
def rotate_image (p : PyBytes) (rotatedSize : Nat × Nat) :
    Except String EncodedImage :=
  match p.decode with
  | .error e => .error ("Failed to rotate image: " ++ e)
  | .ok img =>
    .ok (encodeStep
      { width := rotatedSize.1, height := rotatedSize.2,
        format? := none, mode := img.mode })

/-! ## Claims -/

/-- Fresh `uuid4` used by the C1 upload/delete scenario. -/
def c1Hex : String := "11111111222233334444555566667777"

/-- State after `upload_image` is called by the demo user on an empty store
(S3 and the index insert both succeed). -/
def c1AfterUpload : SvcState :=
  (upload_image ⟨[], []⟩ "bkt" "eu-west-1" [0, 1] "demo-user" "cat.png"
    "image/png" c1Hex none 0 true true).2

/-- C1: the owner-key derivation applied at upload time (sentinel
`demo-user` → reserved UUID, well-formed UUID → itself, other strings →
`uuid5`) is NOT the derivation applied at read-by-id and delete time: those
paths parse the raw id with a bare `uuid.UUID(user_id)`, so for the
sentinel `"demo-user"` (and for the auth fallback id `"mock-user-id"`) the
parse raises, the exception is swallowed, and the asset stored at upload is
reported not-found; the derivations agree only on well-formed UUID
strings.  Concretely: after a successful demo-user upload, both
`delete_image` and `get_image_by_id` with the same raw user id fail while
the uploaded row is still in the index. -/
theorem owner_key_not_rederived_at_delete :
    deriveOwnerUpload "demo-user" = PyUUID.lit reservedHex ∧
    deriveOwnerList "demo-user" = PyUUID.lit reservedHex ∧
    deriveOwnerStrict "demo-user" = none ∧
    deriveOwnerUpload "mock-user-id" = PyUUID.uuid5dns "mock-user-id" ∧
    deriveOwnerStrict "mock-user-id" = none ∧
    (deriveOwnerUpload "123e4567-e89b-12d3-a456-426614174000" =
        PyUUID.lit "123e4567e89b12d3a456426614174000" ∧
      deriveOwnerStrict "123e4567-e89b-12d3-a456-426614174000" =
        some (PyUUID.lit "123e4567e89b12d3a456426614174000")) ∧
    c1AfterUpload.db.length = 1 ∧
    delete_image c1AfterUpload (dashUUID c1Hex) "demo-user" true =
      (false, c1AfterUpload) ∧
    get_image_by_id c1AfterUpload "eu-west-1" (dashUUID c1Hex) "demo-user" =
      none := by decide

/-- C2: `process_image` can never report not-found nor produce a processed
copy: `ImageService.__init__` never creates the `mock_storage` attribute it
reads (and no other code path assigns or populates it), so every call —
here the spec's own example, operations `["grayscale", "rotate:90"]` —
raises `AttributeError` instead of returning the new-asset record or
`None`. -/
theorem process_image_always_raises :
    process_image initImageService "11111111-2222-3333-4444-555566667777"
        "user-1" ["grayscale", "rotate:90"] "88888888-9999-aaaa-bbbb-ccccddddeeee" 7 =
      (.error "AttributeError: mock_storage", initImageService) := by decide

/-- `pre` is a leading substring of `s`. -/
def strBeginsWith (pre s : String) : Prop :=
  pre.toList <+: s.toList

instance (pre s : String) : Decidable (strBeginsWith pre s) :=
  inferInstanceAs (Decidable (pre.toList <+: s.toList))

/-- Appending anything to the right of a string preserves a leading
substring of it. -/
theorem strBeginsWith_append (pre mid e : String)
    (h : pre.toList <+: mid.toList) : strBeginsWith pre (mid ++ e) := by
  have hdata : (mid ++ e).toList = mid.toList ++ e.toList := rfl
  unfold strBeginsWith
  rw [hdata]
  exact h.trans (List.prefix_append _ _)

/-- A rejection reason of the size-cap shape (image_processor.py:55). -/
abbrev isSizeReason (s : String) : Prop :=
  strBeginsWith "File size too large" s

/-- A rejection reason of the dimension-cap shape (image_processor.py:63). -/
abbrev isDimReason (s : String) : Prop :=
  strBeginsWith "Image dimensions too large" s

/-- C10: `validate_image` is total over arbitrary byte payloads: every
input yields a result record — `valid: True` with metadata or
`valid: False` with an `error` reason — and a payload PIL cannot decode
yields the reason `Invalid image format: <exception text>`, which begins
with `Invalid image format`.  (The `try/except` around the whole body is
what makes the Python function return instead of raising; the embedding
renders that as the total return type.) -/
theorem validate_total_on_arbitrary_bytes (p : PyBytes) :
    ((∃ m, validate_image p = .ok m) ∨ (∃ e, validate_image p = .invalid e)) ∧
    (∀ e, p.decode = .error e →
      validate_image p = .invalid ("Invalid image format: " ++ e) ∧
      strBeginsWith "Invalid image format" ("Invalid image format: " ++ e)) := by
  constructor
  · cases h : validate_image p with
    | ok m => exact Or.inl ⟨m, rfl⟩
    | invalid e => exact Or.inr ⟨e, rfl⟩
  · intro e he
    refine ⟨?_, strBeginsWith_append _ _ _ (by decide)⟩
    unfold validate_image
    rw [he]

/-- A payload that PIL fails to decode. -/
def undecodableBytes : PyBytes :=
  { length := 3, decode := .error "cannot identify image file" }

/-- Witness for C10 at a concrete undecodable payload. -/
theorem validate_total_on_arbitrary_bytes_witness :
    validate_image undecodableBytes =
      .invalid ("Invalid image format: " ++ "cannot identify image file") ∧
    strBeginsWith "Invalid image format"
      ("Invalid image format: " ++ "cannot identify image file") :=
  (validate_total_on_arbitrary_bytes undecodableBytes).2
    "cannot identify image file" rfl

/-- A decodable test image: 4×3 PNG, RGB. -/
def rgbPngBytes : PyBytes :=
  { length := 10,
    decode := .ok { width := 4, height := 3, format? := some "PNG", mode := "RGB" } }

/-- C8 counterexample: `"BLUR"` is outside the literal supported set
`{blur, sharpen, edge, emboss, grayscale, sepia, enhance}`, yet
`apply_filter` succeeds on it because the dispatch compares
`filter_name.lower()` — so the claim "for every filter name outside the
supported set, applyFilter fails" is false at `"BLUR"`. -/
theorem apply_filter_uppercase_name_accepted :
    supportedFilters.contains "BLUR" = false ∧
    apply_filter rgbPngBytes "BLUR" =
      .ok { format := "JPEG", width := 4, height := 3, mode := "RGB",
            flattened := false } := by decide

/-- C8 (amended): for every decodable input and every filter name whose
lowercase form is outside the supported set, `apply_filter` fails with
`Failed to apply filter: Unknown filter: <name>`, naming the offending
value (original casing). -/
theorem apply_filter_unknown_name_error (p : PyBytes) (img : PILImage)
    (name : String) (hdec : p.decode = .ok img)
    (hn : strLower name ∉ supportedFilters) :
    apply_filter p name =
      .error ("Failed to apply filter: " ++ ("Unknown filter: " ++ name)) := by
  simp only [supportedFilters, List.mem_cons, List.not_mem_nil, or_false] at hn
  push_neg at hn
  obtain ⟨h1, h2, h3, h4, h5, h6, h7⟩ := hn
  simp only [apply_filter, pilFilterOp, hdec]
  rw [if_neg (by simp [h1, h2, h3, h4]), if_neg h5, if_neg h6, if_neg h7]

/-- Witness for C8's amended theorem at the spec's example name
`"unknown"`. -/
theorem apply_filter_unknown_name_error_witness :
    apply_filter rgbPngBytes "unknown" =
      .error ("Failed to apply filter: " ++ ("Unknown filter: " ++ "unknown")) :=
  apply_filter_unknown_name_error rgbPngBytes
    { width := 4, height := 3, format? := some "PNG", mode := "RGB" }
    "unknown" rfl (by decide)

/-- A decodable 5000×5000 image whose payload also exceeds the byte cap. -/
def hugeBoth : PyBytes :=
  { length := maxImageBytes + 1,
    decode := .ok { width := 5000, height := 5000, format? := some "PNG",
                    mode := "RGB" } }

/-- An undecodable payload that exceeds the byte cap. -/
def hugeJunk : PyBytes :=
  { length := maxImageBytes + 1, decode := .error "cannot identify image file" }

/-- C6 counterexample: the claim universally promises (a) a size-specific
reason for every payload over 10 MiB and (b) a dimension-specific reason
for every payload with a decoded dimension over 4096.  Both fail as
stated: an oversized payload that PIL cannot decode is rejected with the
format reason, not the size reason (the decode runs first); and a
decodable payload exceeding both caps is rejected with the size reason,
not the dimension reason (the size check runs first). -/
theorem validate_reason_precedence_counterexample :
    validate_image hugeJunk =
      .invalid ("Invalid image format: " ++ "cannot identify image file") ∧
    ¬ isSizeReason ("Invalid image format: " ++ "cannot identify image file") ∧
    validate_image hugeBoth = .invalid (sizeErrorMsg (maxImageBytes + 1)) ∧
    ¬ isDimReason (sizeErrorMsg (maxImageBytes + 1)) := by decide

/-- C6 (amended): for every payload that PIL decodes, a byte length over
10 MiB is rejected with the size-specific reason; and when the byte length
is within the cap, a decoded width or height over 4096 is rejected with
the dimension-specific reason (the size check takes precedence when both
caps are exceeded, and undecodable payloads get the format reason
instead). -/
theorem validate_specific_rejection_reasons (p : PyBytes) (img : PILImage)
    (hdec : p.decode = .ok img) :
    (maxImageBytes < p.length →
      validate_image p = .invalid (sizeErrorMsg p.length) ∧
      isSizeReason (sizeErrorMsg p.length)) ∧
    (p.length ≤ maxImageBytes →
      maxDimension < img.width ∨ maxDimension < img.height →
      validate_image p = .invalid (dimErrorMsg img.width img.height) ∧
      isDimReason (dimErrorMsg img.width img.height)) := by
  constructor
  · intro hsz
    constructor
    · simp only [validate_image, hdec]
      rw [if_pos hsz]
    · unfold sizeErrorMsg
      simp only [String.append_assoc]
      exact strBeginsWith_append "File size too large"
        "File size too large: " _ (by decide)
  · intro hsz hdim
    constructor
    · simp only [validate_image, hdec]
      rw [if_neg (by omega), if_pos hdim]
    · unfold dimErrorMsg
      simp only [String.append_assoc]
      exact strBeginsWith_append "Image dimensions too large"
        "Image dimensions too large: " _ (by decide)

/-- Witness for C6's amended theorem: a 11 MB decodable payload gets the
size reason; a 5000×5000 payload of 4 bytes gets the dimension reason. -/
theorem validate_specific_rejection_reasons_witness :
    (validate_image hugeBoth = .invalid (sizeErrorMsg (maxImageBytes + 1)) ∧
      isSizeReason (sizeErrorMsg (maxImageBytes + 1))) ∧
    (validate_image { length := 4, decode := hugeBoth.decode } =
        .invalid (dimErrorMsg 5000 5000) ∧
      isDimReason (dimErrorMsg 5000 5000)) :=
  ⟨(validate_specific_rejection_reasons hugeBoth
      { width := 5000, height := 5000, format? := some "PNG", mode := "RGB" }
      rfl).1 (by decide),
   (validate_specific_rejection_reasons
      { length := 4, decode := hugeBoth.decode }
      { width := 5000, height := 5000, format? := some "PNG", mode := "RGB" }
      rfl).2 (by decide) (by decide)⟩

/-- A decodable 8×6 RGB PNG. -/
def rgbPng8x6 : PyBytes :=
  { length := 100,
    decode := .ok { width := 8, height := 6, format? := some "PNG", mode := "RGB" } }

/-- A decodable 8×6 RGBA PNG (alpha channel). -/
def rgbaPng8x6 : PyBytes :=
  { length := 100,
    decode := .ok { width := 8, height := 6, format? := some "PNG", mode := "RGBA" } }

/-- C9: `resize`, `rotate` and `applyFilter` do NOT re-encode in the input
format: every PIL operation that returns a new image object (`resize`,
`rotate`, `filter`, `ImageOps`, `ImageEnhance`) drops the `format`
metadata, so `img.format or 'JPEG'` evaluates to `'JPEG'` on those paths
regardless of the input format.  Concretely, on a PNG source: exact resize,
blur, and rotation all encode JPEG; only aspect-preserving resize (the
in-place `thumbnail`) re-encodes as PNG.  Consequently the
white-background flattening — whose code is shared verbatim by the three
functions and does test the computed target format — even runs on an
alpha-carrying PNG source under `apply_filter`, while the claim says
alpha-aware target formats are left untouched. -/
theorem derived_images_lose_source_format :
    resize_image rgbPng8x6 4 4 true =
      .ok { format := "PNG", width := 4, height := 3, mode := "RGB",
            flattened := false } ∧
    resize_image rgbPng8x6 4 4 false =
      .ok { format := "JPEG", width := 4, height := 4, mode := "RGB",
            flattened := false } ∧
    apply_filter rgbPng8x6 "blur" =
      .ok { format := "JPEG", width := 8, height := 6, mode := "RGB",
            flattened := false } ∧
    rotate_image rgbPng8x6 (6, 8) =
      .ok { format := "JPEG", width := 6, height := 8, mode := "RGB",
            flattened := false } ∧
    resize_image rgbaPng8x6 4 4 true =
      .ok { format := "PNG", width := 4, height := 3, mode := "RGBA",
            flattened := false } ∧
    apply_filter rgbaPng8x6 "blur" =
      .ok { format := "JPEG", width := 8, height := 6, mode := "RGB",
            flattened := true } := by decide

/-- C4: the blob write strictly precedes the index insert.  If the store
write fails nothing happens at all (no index row is even attempted), and if
the index insert fails after a successful store write, the call reports
failure, the index is unchanged — in particular no row for the new asset id
exists — and the orphan blob is left in the object store. -/
theorem upload_store_write_precedes_index_insert
    (st : SvcState) (bucket region : String) (content : PyBytesRaw)
    (user_id original_filename content_type image_id_hex : String)
    (dims : Option (Nat × Nat)) (now : Nat)
    (hfresh : ∀ r ∈ st.db, r.id ≠ image_id_hex) :
    (∀ insert_ok,
      upload_image st bucket region content user_id original_filename
          content_type image_id_hex dims now false insert_ok =
        (.error "Upload failed: S3 error", st)) ∧
    ((upload_image st bucket region content user_id original_filename
        content_type image_id_hex dims now true false).1 =
      .error "Upload failed: insert error") ∧
    ((upload_image st bucket region content user_id original_filename
        content_type image_id_hex dims now true false).2.db = st.db) ∧
    (∀ r ∈ (upload_image st bucket region content user_id original_filename
        content_type image_id_hex dims now true false).2.db,
      r.id ≠ image_id_hex) ∧
    (∃ o ∈ (upload_image st bucket region content user_id original_filename
        content_type image_id_hex dims now true false).2.s3,
      o.bucket = bucket ∧ o.body = content) :=
  ⟨fun _ => rfl, rfl, rfl, hfresh,
    ⟨_, List.mem_cons_self _ _, rfl, rfl⟩⟩

/-- Index row and S3 blob used by the C3/C4 witnesses. -/
def wRow : ImageRow :=
  { id := "aaaaaaaabbbbccccddddeeeeffff0001"
    user_id := .lit "99999999888877776666555544443333"
    filename := "aaaaaaaa-bbbb-cccc-dddd-eeeeffff0001.png"
    original_filename := "cat.png"
    s3_key := "images/99999999-8888-7777-6666-555544443333/x.png"
    s3_bucket := "bkt"
    size := 2
    content_type := "image/png"
    width := some 4
    height := some 3
    created_at := 5 }

/-- A one-row store owned by `wRow`'s user. -/
def wState : SvcState :=
  { db := [wRow], s3 := [{ bucket := "bkt", key := wRow.s3_key, body := [0, 1] }] }

/-- Witness for C4 on the concrete one-row store. -/
theorem upload_store_write_precedes_index_insert_witness :
    (∀ insert_ok,
      upload_image wState "bkt" "eu-west-1" [7] "demo-user" "dog.png"
          "image/png" "11111111222233334444555566667777" none 9 false insert_ok =
        (.error "Upload failed: S3 error", wState)) ∧
    ((upload_image wState "bkt" "eu-west-1" [7] "demo-user" "dog.png"
        "image/png" "11111111222233334444555566667777" none 9 true false).1 =
      .error "Upload failed: insert error") ∧
    ((upload_image wState "bkt" "eu-west-1" [7] "demo-user" "dog.png"
        "image/png" "11111111222233334444555566667777" none 9 true false).2.db =
      wState.db) ∧
    (∀ r ∈ (upload_image wState "bkt" "eu-west-1" [7] "demo-user" "dog.png"
        "image/png" "11111111222233334444555566667777" none 9 true false).2.db,
      r.id ≠ "11111111222233334444555566667777") ∧
    (∃ o ∈ (upload_image wState "bkt" "eu-west-1" [7] "demo-user" "dog.png"
        "image/png" "11111111222233334444555566667777" none 9 true false).2.s3,
      o.bucket = "bkt" ∧ o.body = [7]) :=
  upload_store_write_precedes_index_insert wState "bkt" "eu-west-1" [7]
    "demo-user" "dog.png" "image/png" "11111111222233334444555566667777"
    none 9 (by decide)

/-- A duplicate-free list whose members are all equal to `a` has at most
one element. -/
theorem length_le_one_of_nodup_const {α : Type} {l : List α} {a : α}
    (hn : l.Nodup) (hc : ∀ x ∈ l, x = a) : l.length ≤ 1 := by
  match l with
  | [] => simp
  | [_] => simp
  | x :: y :: t =>
    exfalso
    have hx : x = a := hc x (by simp)
    have hy : y = a := hc y (by simp)
    have := List.nodup_cons.mp hn
    exact this.1 (by simp [hx, hy])

/-- A row matching both the asset id and the owner key exists in the index
(what the claim calls "exists and is owned"), with both raw strings parsed
the way `delete_image` parses them. -/
def ownedRowExists (st : SvcState) (image_id user_id : String) : Prop :=
  ∃ iid uid, pyParseUUID image_id = some iid ∧ pyParseUUID user_id = some uid ∧
    ∃ r ∈ st.db, r.id = iid ∧ r.user_id = PyUUID.lit uid


/-- C3: `delete_image` reports success exactly when the index delete
removed a row matching both id and owner key (given the primary-key
invariant that index ids are duplicate-free); afterwards no matching row
remains, so an immediate second delete of the same id reports not-found
rather than an error; and an object-store delete failure changes neither
the reported result nor the resulting index. -/
theorem delete_success_iff_index_row_removed
    (st : SvcState) (image_id user_id : String) (s3_ok : Bool)
    (hpk : (st.db.map ImageRow.id).Nodup) :
    ((delete_image st image_id user_id s3_ok).1 = true ↔
      ownedRowExists st image_id user_id) ∧
    ((delete_image st image_id user_id s3_ok).1 =
      (delete_image st image_id user_id (!s3_ok)).1) ∧
    ((delete_image st image_id user_id s3_ok).2.db =
      (delete_image st image_id user_id (!s3_ok)).2.db) ∧
    ((delete_image (delete_image st image_id user_id s3_ok).2
        image_id user_id s3_ok).1 = false) := by
  cases hi : pyParseUUID image_id with
  | none =>
    refine ⟨?_, by simp [delete_image, hi], by simp [delete_image, hi],
      by simp [delete_image, hi]⟩
    simp only [delete_image, hi, Bool.false_eq_true, false_iff, ownedRowExists]
    rintro ⟨iid', uid', hi', -⟩
    exact Option.noConfusion hi'
  | some iid =>
    cases hu : pyParseUUID user_id with
    | none =>
      refine ⟨?_, by simp [delete_image, hi, hu], by simp [delete_image, hi, hu],
        by simp [delete_image, hi, hu]⟩
      simp only [delete_image, hi, hu, Bool.false_eq_true, false_iff,
        ownedRowExists]
      rintro ⟨iid', uid', hi', hu', -⟩
      exact Option.noConfusion hu'
    | some uid =>
      cases hf : st.db.find? (rowMatches iid (.lit uid)) with
      | none =>
        have hnone : ∀ r ∈ st.db, ¬(r.id = iid ∧ r.user_id = PyUUID.lit uid) := by
          intro r hr
          have h := List.find?_eq_none.mp hf r hr
          simpa [rowMatches] using h
        refine ⟨?_, by simp [delete_image, hi, hu, hf],
          by simp [delete_image, hi, hu, hf], ?_⟩
        · simp only [delete_image, hi, hu, hf, Bool.false_eq_true, false_iff,
            ownedRowExists]
          rintro ⟨iid', uid', hi', hu', r, hr, h1, h2⟩
          obtain rfl := Option.some.inj hi'
          obtain rfl := Option.some.inj hu'
          exact hnone r hr ⟨h1, h2⟩
        · simp only [delete_image, hi, hu, hf]
      | some row =>
        have hmem : row ∈ st.db := List.mem_of_find?_eq_some hf
        have hmatch : rowMatches iid (.lit uid) row = true := List.find?_some hf
        have hmatch' : row.id = iid ∧ row.user_id = PyUUID.lit uid := by
          simpa [rowMatches] using hmatch
        have hlen : (st.db.filter (rowMatches iid (.lit uid))).length = 1 := by
          have hsub : List.Sublist
              ((st.db.filter (rowMatches iid (.lit uid))).map ImageRow.id)
              (st.db.map ImageRow.id) :=
            (List.filter_sublist st.db).map ImageRow.id
          have hnd : ((st.db.filter (rowMatches iid (.lit uid))).map
              ImageRow.id).Nodup := hpk.sublist hsub
          have hconst : ∀ x ∈ (st.db.filter (rowMatches iid (.lit uid))).map
              ImageRow.id, x = iid := by
            intro x hx
            obtain ⟨r, hr, rfl⟩ := List.mem_map.mp hx
            have h := (List.mem_filter.mp hr).2
            have h' : r.id = iid ∧ r.user_id = PyUUID.lit uid := by
              simpa [rowMatches] using h
            exact h'.1
          have hub := length_le_one_of_nodup_const hnd hconst
          rw [List.length_map] at hub
          have hlb : 0 < (st.db.filter (rowMatches iid (.lit uid))).length :=
            List.length_pos.mpr
              (List.ne_nil_of_mem (List.mem_filter.mpr ⟨hmem, hmatch⟩))
          omega
        refine ⟨?_, by simp [delete_image, hi, hu, hf],
          by simp [delete_image, hi, hu, hf], ?_⟩
        · simp only [delete_image, hi, hu, hf]
          rw [decide_eq_true_eq]
          exact iff_of_true hlen
            ⟨iid, uid, hi, hu, row, hmem, hmatch'.1, hmatch'.2⟩
        · have hf2 : (st.db.filter
              (fun r => !(rowMatches iid (.lit uid) r))).find?
              (rowMatches iid (.lit uid)) = none := by
            refine List.find?_eq_none.mpr ?_
            intro r hr
            have h := (List.mem_filter.mp hr).2
            simp only [Bool.not_eq_true'] at h
            simp [h]
          simp only [delete_image, hi, hu, hf]
          rw [hf2]

/-- Witness for C3 on the concrete one-row store: deleting the owned row
succeeds, and an immediate second delete reports not-found. -/
theorem delete_success_iff_index_row_removed_witness :
    (delete_image wState (dashUUID "aaaaaaaabbbbccccddddeeeeffff0001")
        (dashUUID "99999999888877776666555544443333") true).1 = true ∧
    (delete_image (delete_image wState
        (dashUUID "aaaaaaaabbbbccccddddeeeeffff0001")
        (dashUUID "99999999888877776666555544443333") true).2
        (dashUUID "aaaaaaaabbbbccccddddeeeeffff0001")
        (dashUUID "99999999888877776666555544443333") true).1 = false := by
  have h := delete_success_iff_index_row_removed wState
    (dashUUID "aaaaaaaabbbbccccddddeeeeffff0001")
    (dashUUID "99999999888877776666555544443333") true (by decide)
  exact ⟨h.1.mpr ⟨"aaaaaaaabbbbccccddddeeeeffff0001",
    "99999999888877776666555544443333", by decide, by decide, wRow,
    by simp [wState], by decide, by decide⟩, h.2.2.2⟩

/-- The integer formula `(t + l - 1) / l` used at image_service.py:224 is
the ceiling of the rational `t / l`. -/
theorem add_pred_div_eq_nat_ceil (t l : Nat) (hl : 0 < l) :
    (t + l - 1) / l = ⌈(t : ℚ) / (l : ℚ)⌉₊ := by
  rcases Nat.eq_zero_or_pos t with ht | ht
  · subst ht
    rw [Nat.div_eq_of_lt (by omega)]
    simp
  · have hdm := Nat.div_add_mod (t + l - 1) l
    have hml := Nat.mod_lt (t + l - 1) hl
    set q := (t + l - 1) / l with hq
    set r := (t + l - 1) % l with hr
    have hqpos : 1 ≤ q := by
      have : 1 * l ≤ t + l - 1 := by omega
      exact (Nat.le_div_iff_mul_le hl).mpr this
    have hlq : (0 : ℚ) < (l : ℚ) := by exact_mod_cast hl
    symm
    rw [Nat.ceil_eq_iff (by omega : q ≠ 0)]
    constructor
    · rw [lt_div_iff hlq, Nat.cast_sub hqpos]
      have key : (q - 1) * l < t := by
        have e1 : (q - 1) * l = l * q - l := by
          rw [Nat.sub_mul, one_mul, Nat.mul_comm]
        omega
      calc ((q : ℚ) - 1) * (l : ℚ) = (((q - 1 : ℕ) : ℚ)) * (l : ℚ) := by
            rw [Nat.cast_sub hqpos]; push_cast; ring
        _ < (t : ℚ) := by exact_mod_cast key
    · rw [div_le_iff hlq]
      have key2 : t ≤ q * l := by
        have e2 : q * l = l * q := Nat.mul_comm _ _
        omega
      exact_mod_cast key2

/-- The rows of the index selected by `get_user_images`' WHERE clause for a
raw caller id and optional format filter. -/
def matchingRows (st : SvcState) (user_id : String) (ff : Option String) :
    List ImageRow :=
  st.db.filter (listWhere (deriveOwnerList user_id) ff)

/-- C5: for every owner, every page ≥ 1 and every page size ≥ 1 (a zero
page size makes the Python `//` raise `ZeroDivisionError`, and the claim's
own `ceil(total/pageSize)` presupposes a positive size), the pagination
envelope returned by `get_user_images` carries `currentPage = page`,
`totalImages = total`, `totalPages = ⌈total / pageSize⌉`,
`hasNextPage ↔ page·pageSize < total`, `hasPreviousPage ↔ page > 1`, and
the page holds `min pageSize (total - (page-1)·pageSize)` items — e.g. 10
of 25 on page 1 (3 pages, next but no previous) and 5 on page 3. -/
theorem list_pagination_envelope
    (st : SvcState) (region user_id : String) (page limit : Nat)
    (format_filter : Option String) (hp : 1 ≤ page) (hl : 1 ≤ limit) :
    (get_user_images st region user_id page limit format_filter).pagination.currentPage
        = page ∧
    (get_user_images st region user_id page limit format_filter).pagination.totalImages
        = (matchingRows st user_id format_filter).length ∧
    (get_user_images st region user_id page limit format_filter).pagination.totalPages
        = ⌈((matchingRows st user_id format_filter).length : ℚ) / (limit : ℚ)⌉₊ ∧
    ((get_user_images st region user_id page limit format_filter).pagination.hasNextPage
        = true ↔ page * limit < (matchingRows st user_id format_filter).length) ∧
    ((get_user_images st region user_id page limit format_filter).pagination.hasPreviousPage
        = true ↔ 1 < page) ∧
    (get_user_images st region user_id page limit format_filter).images.length
        = min limit
            ((matchingRows st user_id format_filter).length - (page - 1) * limit) := by
  refine ⟨rfl, rfl, add_pred_div_eq_nat_ceil _ limit hl, ?_, ?_, ?_⟩
  · show decide (page * limit < (matchingRows st user_id format_filter).length)
        = true ↔ page * limit < (matchingRows st user_id format_filter).length
    rw [decide_eq_true_eq]
  · show decide (1 < page) = true ↔ 1 < page
    rw [decide_eq_true_eq]
  · have him : (get_user_images st region user_id page limit format_filter).images
        = ((((matchingRows st user_id format_filter).insertionSort
            (fun a b => b.created_at ≤ a.created_at)).drop
            ((page - 1) * limit)).take limit).map (rowView region user_id) := rfl
    rw [him, List.length_map, List.length_take, List.length_drop,
      (List.perm_insertionSort _ _).length_eq]

/-- One demo-owned index row per timestamp, for the C5 witness. -/
def c5Row (n : Nat) (hex : String) : ImageRow :=
  { id := hex
    user_id := .lit reservedHex
    filename := dashUUID hex ++ ".png"
    original_filename := "cat.png"
    s3_key := "images/00000000-0000-0000-0000-000000000001/" ++ dashUUID hex ++ ".png"
    s3_bucket := "bkt"
    size := 2
    content_type := "image/png"
    width := some 4
    height := some 3
    created_at := n }

/-- A store with three assets owned by the demo user. -/
def c5St : SvcState :=
  { db := [c5Row 1 "00000000000000000000000000000011",
           c5Row 2 "00000000000000000000000000000012",
           c5Row 3 "00000000000000000000000000000013"]
    s3 := [] }

/-- Witness for C5: three demo-owned assets listed with `page = 1`,
`pageSize = 2` give `totalPages = 2`, two items, a next page and no
previous page. -/
theorem list_pagination_envelope_witness :
    (get_user_images c5St "eu" "demo-user" 1 2 none).pagination.totalPages = 2 ∧
    (get_user_images c5St "eu" "demo-user" 1 2 none).pagination.hasNextPage = true ∧
    (get_user_images c5St "eu" "demo-user" 1 2 none).pagination.hasPreviousPage
      = false ∧
    (get_user_images c5St "eu" "demo-user" 1 2 none).images.length = 2 := by
  have h := list_pagination_envelope c5St "eu" "demo-user" 1 2 none
    (by decide) (by decide)
  have hcount : (matchingRows c5St "demo-user" none).length = 3 := by decide
  refine ⟨?_, ?_, ?_, ?_⟩
  · rw [h.2.2.1, hcount]
    rw [Nat.ceil_eq_iff (by norm_num)]
    norm_num
  · rw [h.2.2.2.1, hcount]
    norm_num
  · have hprev := h.2.2.2.2.1
    cases hb : (get_user_images c5St "eu" "demo-user" 1 2 none).pagination.hasPreviousPage with
    | false => rfl
    | true => exact absurd (hprev.mp hb) (by norm_num)
  · rw [h.2.2.2.2.2, hcount]
    decide

/-- Either rounding candidate of Pillow's `round_aspect` (floor or ceiling
of `num/den`), clamped to at least 1, stays within any positive integer
bound `B` respected by the exact ratio (`num ≤ B·den`). -/
theorem roundPick_le (num den B pick : Nat) (hden : 1 ≤ den) (hB : 1 ≤ B)
    (hpick : pick = num / den ∨ pick = (num + den - 1) / den)
    (hle : num ≤ B * den) : max pick 1 ≤ B := by
  have hBden : B * den = den * B := Nat.mul_comm _ _
  have hpb : pick ≤ B := by
    rcases hpick with rfl | rfl
    · have h1 := Nat.div_add_mod num den
      apply Nat.le_of_mul_le_mul_left ?_ (show 0 < den by omega)
      omega
    · have h1 := Nat.div_add_mod (num + den - 1) den
      have h2 := Nat.mod_lt (num + den - 1) (show 0 < den by omega)
      have hkey : den * ((num + den - 1) / den) < den * (B + 1) := by
        have h3 : den * (B + 1) = den * B + den := by ring
        omega
      have := Nat.lt_of_mul_lt_mul_left hkey
      omega
  exact Nat.max_le.mpr ⟨hpb, hB⟩

/-- Either rounding candidate, clamped to at least 1, keeps the cross
product within one denominator of the exact one. -/
theorem roundPick_dist (num den pick : Nat) (hden : 1 ≤ den) (hnum : 1 ≤ num)
    (hpick : pick = num / den ∨ pick = (num + den - 1) / den) :
    max pick 1 * den < num + den ∧ num < max pick 1 * den + den := by
  rcases hpick with rfl | rfl
  · have h1 := Nat.div_add_mod num den
    have h2 := Nat.mod_lt num (show 0 < den by omega)
    rcases Nat.eq_zero_or_pos (num / den) with hz | hpos
    · rw [hz] at h1 ⊢
      have hm : max 0 1 = 1 := rfl
      rw [hm, one_mul]
      omega
    · rw [Nat.max_eq_left hpos]
      have hcomm : num / den * den = den * (num / den) := Nat.mul_comm _ _
      omega
  · have h1 := Nat.div_add_mod (num + den - 1) den
    have h2 := Nat.mod_lt (num + den - 1) (show 0 < den by omega)
    have hpos : 1 ≤ (num + den - 1) / den := by
      apply (Nat.le_div_iff_mul_le (show 0 < den by omega)).mpr
      omega
    rw [Nat.max_eq_left hpos]
    have hcomm : (num + den - 1) / den * den = den * ((num + den - 1) / den) :=
      Nat.mul_comm _ _
    omega

/-- Dimension contract of the modelled Pillow `thumbnail`: the result fits
the requested box, never exceeds the source dimensions, keeps both
dimensions at least 1, and its cross products with the source differ by at
most `max w h` (aspect preserved up to integer rounding). -/
theorem pilThumbnail_spec (w h tw th : Nat) (fmt : Option String)
    (mode : String) (hw : 1 ≤ w) (hh : 1 ≤ h) (htw : 1 ≤ tw) (hth : 1 ≤ th) :
    (pilThumbnail ⟨w, h, fmt, mode⟩ tw th).width ≤ tw ∧
    (pilThumbnail ⟨w, h, fmt, mode⟩ tw th).height ≤ th ∧
    (pilThumbnail ⟨w, h, fmt, mode⟩ tw th).width ≤ w ∧
    (pilThumbnail ⟨w, h, fmt, mode⟩ tw th).height ≤ h ∧
    1 ≤ (pilThumbnail ⟨w, h, fmt, mode⟩ tw th).width ∧
    1 ≤ (pilThumbnail ⟨w, h, fmt, mode⟩ tw th).height ∧
    Nat.dist ((pilThumbnail ⟨w, h, fmt, mode⟩ tw th).width * h)
      ((pilThumbnail ⟨w, h, fmt, mode⟩ tw th).height * w) ≤ max w h := by
  unfold pilThumbnail
  by_cases hfits : w ≤ tw ∧ h ≤ th
  · rw [if_pos (show (⟨w, h, fmt, mode⟩ : PILImage).width ≤ tw ∧
        (⟨w, h, fmt, mode⟩ : PILImage).height ≤ th from hfits)]
    refine ⟨hfits.1, hfits.2, le_refl _, le_refl _, hw, hh, ?_⟩
    show Nat.dist (w * h) (h * w) ≤ max w h
    rw [Nat.mul_comm h w]
    simp [Nat.dist_self]
  · rw [if_neg hfits]
    by_cases hbr : w * th ≤ tw * h
    · rw [if_pos (show (⟨w, h, fmt, mode⟩ : PILImage).width * th ≤
          tw * (⟨w, h, fmt, mode⟩ : PILImage).height from hbr)]
      have hthh : th ≤ h := by
        rcases le_or_lt th h with h' | h'
        · exact h'
        · exfalso
          have htww : tw < w := by
            rcases Nat.lt_or_ge tw w with h'' | h''
            · exact h''
            · exact absurd ⟨h'', by omega⟩ hfits
          have e1 : w * (h + 1) ≤ w * th := Nat.mul_le_mul_left w (by omega)
          have e2 : (tw + 1) * h ≤ w * h := Nat.mul_le_mul_right h (by omega)
          have e3 : w * (h + 1) = w * h + w := by ring
          have e4 : (tw + 1) * h = tw * h + h := by ring
          omega
      have hpa : ∃ pick, (pick = th * w / h ∨ pick = (th * w + h - 1) / h) ∧
          pilRoundAspect1 w h th = max pick 1 := by
        unfold pilRoundAspect1
        by_cases hc : th * w - th * w / h * h ≤ (th * w + h - 1) / h * h - th * w
        · exact ⟨th * w / h, Or.inl rfl, by rw [if_pos hc]⟩
        · exact ⟨(th * w + h - 1) / h, Or.inr rfl, by rw [if_neg hc]⟩
      obtain ⟨pick, hpick, heq⟩ := hpa
      have hnum1 : 1 ≤ th * w := by
        have := Nat.mul_pos (show 0 < th by omega) (show 0 < w by omega)
        omega
      have hb1 : max pick 1 ≤ tw := by
        refine roundPick_le (th * w) h tw pick hh htw hpick ?_
        have hc1 : th * w = w * th := Nat.mul_comm _ _
        have hc2 : tw * h = h * tw := Nat.mul_comm _ _
        have hc3 : h * tw = tw * h := Nat.mul_comm _ _
        omega
      have hb2 : max pick 1 ≤ w := by
        refine roundPick_le (th * w) h w pick hh hw hpick ?_
        have hc1 : th * w ≤ h * w := Nat.mul_le_mul_right w hthh
        have hc2 : h * w = w * h := Nat.mul_comm _ _
        omega
      have hd := roundPick_dist (th * w) h pick hh hnum1 hpick
      have hmaxh : h ≤ max w h := Nat.le_max_right w h
      refine ⟨?_, ?_, ?_, ?_, ?_, ?_, ?_⟩
      · show pilRoundAspect1 w h th ≤ tw
        rw [heq]; exact hb1
      · exact le_refl th
      · show pilRoundAspect1 w h th ≤ w
        rw [heq]; exact hb2
      · exact hthh
      · show 1 ≤ pilRoundAspect1 w h th
        rw [heq]; exact Nat.le_max_right _ _
      · exact hth
      · show Nat.dist (pilRoundAspect1 w h th * h) (th * w) ≤ max w h
        rw [heq]
        unfold Nat.dist
        omega
    · rw [if_neg (show ¬((⟨w, h, fmt, mode⟩ : PILImage).width * th ≤
          tw * (⟨w, h, fmt, mode⟩ : PILImage).height) from hbr)]
      have htww : tw ≤ w := by
        rcases le_or_lt tw w with h' | h'
        · exact h'
        · exfalso
          have hthh : h < th := by
            apply Nat.lt_of_mul_lt_mul_left (a := tw)
            have hc1 : tw * h < w * th := by omega
            have hc2 : w * th ≤ tw * th := Nat.mul_le_mul_right th (by omega)
            omega
          exact hfits ⟨by omega, by omega⟩
      have hpa : ∃ pick, (pick = tw * h / w ∨ pick = (tw * h + w - 1) / w) ∧
          pilRoundAspect2 w h tw = max pick 1 := by
        unfold pilRoundAspect2
        by_cases hz : tw * h / w = 0
        · exact ⟨tw * h / w, Or.inl rfl, by rw [if_pos hz]⟩
        · by_cases hc : (tw * h - tw * h / w * w) * ((tw * h + w - 1) / w) ≤
              ((tw * h + w - 1) / w * w - tw * h) * (tw * h / w)
          · exact ⟨tw * h / w, Or.inl rfl, by rw [if_neg hz, if_pos hc]⟩
          · exact ⟨(tw * h + w - 1) / w, Or.inr rfl, by rw [if_neg hz, if_neg hc]⟩
      obtain ⟨pick, hpick, heq⟩ := hpa
      have hnum1 : 1 ≤ tw * h := by
        have := Nat.mul_pos (show 0 < tw by omega) (show 0 < h by omega)
        omega
      have hb1 : max pick 1 ≤ th := by
        refine roundPick_le (tw * h) w th pick hw hth hpick ?_
        have hc1 : th * w = w * th := Nat.mul_comm _ _
        omega
      have hb2 : max pick 1 ≤ h := by
        refine roundPick_le (tw * h) w h pick hw hh hpick ?_
        have hc1 : tw * h ≤ w * h := Nat.mul_le_mul_right h htww
        have hc2 : w * h = h * w := Nat.mul_comm _ _
        omega
      have hd := roundPick_dist (tw * h) w pick hw hnum1 hpick
      have hmaxw : w ≤ max w h := Nat.le_max_left w h
      refine ⟨?_, ?_, ?_, ?_, ?_, ?_, ?_⟩
      · exact le_refl tw
      · show pilRoundAspect2 w h tw ≤ th
        rw [heq]; exact hb1
      · exact htww
      · show pilRoundAspect2 w h tw ≤ h
        rw [heq]; exact hb2
      · exact htw
      · show 1 ≤ pilRoundAspect2 w h tw
        rw [heq]; exact Nat.le_max_right _ _
      · show Nat.dist (tw * h) (pilRoundAspect2 w h tw * w) ≤ max w h
        rw [heq]
        unfold Nat.dist
        omega

/-- The save block does not change the image dimensions. -/
theorem encodeStep_width (i : PILImage) : (encodeStep i).width = i.width := by
  unfold encodeStep
  split <;> rfl

/-- The save block does not change the image dimensions. -/
theorem encodeStep_height (i : PILImage) : (encodeStep i).height = i.height := by
  unfold encodeStep
  split <;> rfl

/-- C7: for every decodable input with positive dimensions and every
positive target box, `resize_image` with `maintain_aspect = true` returns
an image that fits the box, never upscales beyond the source in either
dimension, keeps both dimensions at least 1, and preserves the source
aspect ratio up to integer rounding (the cross products differ by at most
`max width height`); with `maintain_aspect = false` it returns exactly the
target dimensions. -/
theorem resize_fits_box_and_keeps_aspect (p : PyBytes) (img : PILImage)
    (tw th : Nat) (hdec : p.decode = .ok img) (hw : 1 ≤ img.width)
    (hh : 1 ≤ img.height) (htw : 1 ≤ tw) (hth : 1 ≤ th) :
    (∃ out, resize_image p tw th true = .ok out ∧ out.width ≤ tw ∧
      out.height ≤ th ∧ out.width ≤ img.width ∧ out.height ≤ img.height ∧
      1 ≤ out.width ∧ 1 ≤ out.height ∧
      Nat.dist (out.width * img.height) (out.height * img.width)
        ≤ max img.width img.height) ∧
    (∃ out, resize_image p tw th false = .ok out ∧
      out.width = tw ∧ out.height = th) := by
  obtain ⟨w, h, fmt, mode⟩ := img
  constructor
  · refine ⟨encodeStep (pilThumbnail ⟨w, h, fmt, mode⟩ tw th), ?_, ?_, ?_, ?_,
      ?_, ?_, ?_, ?_⟩
    · simp [resize_image, hdec]
    all_goals simp only [encodeStep_width, encodeStep_height]
    · exact (pilThumbnail_spec w h tw th fmt mode hw hh htw hth).1
    · exact (pilThumbnail_spec w h tw th fmt mode hw hh htw hth).2.1
    · exact (pilThumbnail_spec w h tw th fmt mode hw hh htw hth).2.2.1
    · exact (pilThumbnail_spec w h tw th fmt mode hw hh htw hth).2.2.2.1
    · exact (pilThumbnail_spec w h tw th fmt mode hw hh htw hth).2.2.2.2.1
    · exact (pilThumbnail_spec w h tw th fmt mode hw hh htw hth).2.2.2.2.2.1
    · exact (pilThumbnail_spec w h tw th fmt mode hw hh htw hth).2.2.2.2.2.2
  · refine ⟨encodeStep (pilResize ⟨w, h, fmt, mode⟩ tw th), ?_, ?_, ?_⟩
    · simp [resize_image, hdec]
    · rw [encodeStep_width]
      rfl
    · rw [encodeStep_height]
      rfl

/-- The spec's example source: a 4000×2000 JPEG. -/
def bigLandscape : PyBytes :=
  { length := 1000,
    decode := .ok { width := 4000, height := 2000, format? := some "JPEG",
                    mode := "RGB" } }

/-- Witness for C7 at the spec's example (`resize(bytes, 200, 200)` on a
4000×2000 source). -/
theorem resize_fits_box_and_keeps_aspect_witness :
    (∃ out, resize_image bigLandscape 200 200 true = .ok out ∧
      out.width ≤ 200 ∧ out.height ≤ 200 ∧ out.width ≤ 4000 ∧
      out.height ≤ 2000 ∧ 1 ≤ out.width ∧ 1 ≤ out.height ∧
      Nat.dist (out.width * 2000) (out.height * 4000) ≤ max 4000 2000) ∧
    (∃ out, resize_image bigLandscape 200 200 false = .ok out ∧
      out.width = 200 ∧ out.height = 200) :=
  resize_fits_box_and_keeps_aspect bigLandscape
    { width := 4000, height := 2000, format? := some "JPEG", mode := "RGB" }
    200 200 rfl (by decide) (by decide) (by decide) (by decide)
